import Mathlib

/-!
# Behavioral Timing Governor — shallow embedding

Shallow embedding of the stealth-governor subsystem
(`internal/stealth/rate_limit.go` and `internal/stealth/schedule.go`).

Modelling conventions:
* Timestamps and durations are integers, measured in seconds
  (`time.Hour = 3600`, `24 * time.Hour = 86400`).  The Go code works in
  nanoseconds; every comparison it performs is scale invariant, and the
  configured limits are whole numbers of seconds.
* Every call of a governor method runs under the receiver's mutex and reads
  `time.Now()` several times inside the critical section; all those reads are
  modelled as a single instant `now` passed as a parameter.
* Go maps with zero-value defaults (`rl.limits`, `rl.actionHistory`) are
  modelled as total functions returning `none` / `[]` for absent keys; in-place
  map writes become `Function.update`.
* Mutating methods return the updated `RateLimiter` value next to their Go
  return value; `time.Time`'s zero value is the integer `0` (the process is
  observed at non-negative instants, and `now.Before(zeroTime)` is false for
  every such instant, matching `now < 0`).
* The human-readable reason strings built with `fmt.Sprintf` are modelled by
  the inductive `Reason`, keeping the numeric payloads that the strings format.
-/

/-- `ActionType` is a named string type in the source. -/
abbrev ActionType := String

/-- The eight declared action-kind constants. -/
def ActionProfileView : ActionType := "profile_view"

def ActionConnectionReq : ActionType := "connection_request"

def ActionMessage : ActionType := "message"

def ActionSearch : ActionType := "search"

def ActionScroll : ActionType := "scroll"

def ActionLike : ActionType := "like"

def ActionComment : ActionType := "comment"

def ActionPageView : ActionType := "page_view"

/-- `ActionLimit` — per-kind static limit configuration (Go ints and
`time.Duration`s, here `Int` seconds). -/
structure ActionLimit where
  HourlyMax : Int
  DailyMax : Int
  MinInterval : Int
  CooldownAfter : Int
  CooldownDuration : Int
  deriving Repr, DecidableEq

/-- The state of a `RateLimiter`: limit configuration, per-kind timestamp
history, reset markers, the global cooldown-end instant and the shared
consecutive-action counter.  (The `sync.RWMutex` serialises calls and has no
observable state of its own.) -/
structure RateLimiter where
  limits : ActionType → Option ActionLimit
  actionHistory : ActionType → List Int
  dailyResetTime : Int
  hourlyResetTime : Int
  cooldownUntil : Int
  consecutiveActions : Int

/-- Outcome `reason` string of `CanPerformAction`, with the formatted payloads. -/
inductive Reason where
  | noReason
  | cooldown (remaining : Int)
  | hourlyLimit (count : Nat) (max : Int)
  | dailyLimit (count : Nat) (max : Int)
  | tooSoon (remaining : Int)
  deriving Repr, DecidableEq

/-- The limit table installed by `NewRateLimiter`. -/
def defaultLimits : ActionType → Option ActionLimit := fun t =>
  if t = ActionProfileView then
    some { HourlyMax := 40, DailyMax := 200, MinInterval := 15,
           CooldownAfter := 10, CooldownDuration := 5 * 60 }
  else if t = ActionConnectionReq then
    some { HourlyMax := 10, DailyMax := 50, MinInterval := 90,
           CooldownAfter := 5, CooldownDuration := 10 * 60 }
  else if t = ActionMessage then
    some { HourlyMax := 15, DailyMax := 80, MinInterval := 60,
           CooldownAfter := 7, CooldownDuration := 8 * 60 }
  else if t = ActionSearch then
    some { HourlyMax := 30, DailyMax := 150, MinInterval := 20,
           CooldownAfter := 8, CooldownDuration := 3 * 60 }
  else if t = ActionScroll then
    some { HourlyMax := 200, DailyMax := 1000, MinInterval := 2,
           CooldownAfter := 20, CooldownDuration := 2 * 60 }
  else if t = ActionLike then
    some { HourlyMax := 25, DailyMax := 120, MinInterval := 30,
           CooldownAfter := 8, CooldownDuration := 5 * 60 }
  else if t = ActionComment then
    some { HourlyMax := 8, DailyMax := 30, MinInterval := 120,
           CooldownAfter := 3, CooldownDuration := 15 * 60 }
  else if t = ActionPageView then
    some { HourlyMax := 100, DailyMax := 500, MinInterval := 5,
           CooldownAfter := 15, CooldownDuration := 3 * 60 }
  else none

/-- `NewRateLimiter`, constructed at instant `t0` (`resetTimers` inlined:
it sets the hourly/daily reset markers one hour / one day ahead). -/
def NewRateLimiter (t0 : Int) : RateLimiter where
  limits := defaultLimits
  actionHistory := fun _ => []
  dailyResetTime := t0 + 86400
  hourlyResetTime := t0 + 3600
  cooldownUntil := 0
  consecutiveActions := 0

/-- `countActionsInWindow`: backward scan from the most recent entry, counting
entries strictly after `now - window` and stopping at the first older one. -/
def countActionsInWindow (now : Int) (history : List Int) (window : Int) : Nat :=
  (history.reverse.takeWhile (fun t => decide (now - window < t))).length

/-- `cleanHistory`: keep only the entries strictly after `now - 24h`.
(The Go method returns early on an empty slice without touching the map; the
value it leaves behind is the same empty history.) -/
def cleanHistory (now : Int) (history : List Int) : List Int :=
  history.filter (fun t => decide (now - 86400 < t))

/-- The quota checks of `CanPerformAction` after pruning (source lines
138–162): hourly window, then daily window, then minimum interval against the
last history entry. -/
def checkQuotas (limit : ActionLimit) (now : Int) (history : List Int) :
    Bool × Reason :=
  let hourlyCount := countActionsInWindow now history 3600
  if (hourlyCount : Int) ≥ limit.HourlyMax then
    (false, Reason.hourlyLimit hourlyCount limit.HourlyMax)
  else
    let dailyCount := countActionsInWindow now history 86400
    if (dailyCount : Int) ≥ limit.DailyMax then
      (false, Reason.dailyLimit dailyCount limit.DailyMax)
    else
      match history.getLast? with
      | some lastAction =>
          if now - lastAction < limit.MinInterval then
            (false, Reason.tooSoon (limit.MinInterval - (now - lastAction)))
          else
            (true, Reason.noReason)
      | none => (true, Reason.noReason)

/-- `CanPerformAction`: cooldown gate, open default for an unconfigured kind,
otherwise prune the kind's history in place (`cleanHistory` writes the map)
and run the quota checks on the pruned history.  Returns the Go results
together with the possibly-pruned receiver state. -/
def RateLimiter.CanPerformAction (rl : RateLimiter) (now : Int)
    (actionType : ActionType) : (Bool × Reason) × RateLimiter :=
  if now < rl.cooldownUntil then
    ((false, Reason.cooldown (rl.cooldownUntil - now)), rl)
  else
    match rl.limits actionType with
    | none => ((true, Reason.noReason), rl)
    | some limit =>
        let cleaned := cleanHistory now (rl.actionHistory actionType)
        let rl' := { rl with
          actionHistory := Function.update rl.actionHistory actionType cleaned }
        (checkQuotas limit now cleaned, rl')

/-- `RecordAction`: error (the Go `error` message) for an unconfigured kind,
otherwise append `now` to the kind's history, bump the shared consecutive
counter, trigger the global cooldown when it reaches `CooldownAfter`, and
push the hourly/daily reset markers forward when passed. -/
def RateLimiter.RecordAction (rl : RateLimiter) (now : Int)
    (actionType : ActionType) : Option String × RateLimiter :=
  match rl.limits actionType with
  | none => (some ("no limit defined for action type: " ++ actionType), rl)
  | some limit =>
      let rl := { rl with
        actionHistory :=
          Function.update rl.actionHistory actionType
            (rl.actionHistory actionType ++ [now]) }
      let consec := rl.consecutiveActions + 1
      let rl :=
        if consec ≥ limit.CooldownAfter then
          { rl with cooldownUntil := now + limit.CooldownDuration,
                    consecutiveActions := 0 }
        else
          { rl with consecutiveActions := consec }
      let rl :=
        if rl.hourlyResetTime < now then
          { rl with hourlyResetTime := now + 3600 }
        else rl
      let rl :=
        if rl.dailyResetTime < now then
          { rl with dailyResetTime := now + 86400 }
        else rl
      (none, rl)

/-- `GetWaitTime`: remaining cooldown while cooling down; otherwise the
remaining minimum interval for the kind, zero when none is pending (or the
kind is unconfigured or has no history). -/
def RateLimiter.GetWaitTime (rl : RateLimiter) (now : Int)
    (actionType : ActionType) : Int :=
  if now < rl.cooldownUntil then
    rl.cooldownUntil - now
  else
    match rl.limits actionType with
    | none => 0
    | some limit =>
        match (rl.actionHistory actionType).getLast? with
        | none => 0
        | some lastAction =>
            let elapsed := now - lastAction
            if elapsed < limit.MinInterval then limit.MinInterval - elapsed
            else 0

/-- The snapshot map built by `GetActionStats`. -/
structure ActionStats where
  hourlyCount : Nat
  hourlyLimit : Int
  hourlyRemaining : Int
  dailyCount : Nat
  dailyLimit : Int
  dailyRemaining : Int
  inCooldown : Bool
  cooldownRemaining : Int
  deriving Repr, DecidableEq

/-- `GetActionStats` looks the kind up in `rl.limits` without checking
presence (`limit := rl.limits[actionType]`) and immediately reads
`limit.HourlyMax` through the pointer; for an absent kind the pointer is nil
and the read panics.  The panic is modelled as `none`; every other path
builds the snapshot. -/
def RateLimiter.GetActionStats (rl : RateLimiter) (now : Int)
    (actionType : ActionType) : Option ActionStats :=
  match rl.limits actionType with
  | none => none
  | some limit =>
      let history := rl.actionHistory actionType
      let hourlyCount := countActionsInWindow now history 3600
      let dailyCount := countActionsInWindow now history 86400
      some {
        hourlyCount := hourlyCount
        hourlyLimit := limit.HourlyMax
        hourlyRemaining := limit.HourlyMax - hourlyCount
        dailyCount := dailyCount
        dailyLimit := limit.DailyMax
        dailyRemaining := limit.DailyMax - dailyCount
        inCooldown := decide (now < rl.cooldownUntil)
        cooldownRemaining :=
          if now < rl.cooldownUntil then rl.cooldownUntil - now else 0 }

/-- `ResetDaily`: re-prune every kind's history to the trailing 24-hour window
and push the daily reset marker one day ahead.  (Go iterates over the keys
present in the map; absent keys hold the empty history, on which
`cleanHistory` is the identity, so cleaning every kind is the same state.) -/
def RateLimiter.ResetDaily (rl : RateLimiter) (now : Int) : RateLimiter :=
  { rl with
    actionHistory := fun actionType => cleanHistory now (rl.actionHistory actionType)
    dailyResetTime := now + 86400 }

/-!
## Activity scheduler (`schedule.go`)

`time.Location` is opaque to this subsystem: the scheduler only stores the
value `time.LoadLocation` resolves (or `time.UTC` on failure) and later uses
it to read local wall-clock components.  `LoadLocation` itself is external
(tzdata lookup), modelled as a caller-supplied resolver
`String → Option Location`.  `rand.Float64` draws are the rationals in
`[0, 1)` supplied to each function.
-/

/-- An opaque timezone value as stored by the scheduler. -/
structure Location where
  name : String
  deriving Repr, DecidableEq

/-- `time.UTC`. -/
def UTC : Location := ⟨"UTC"⟩

/-- `TimeWindow` (only ever constructed empty by the source). -/
structure TimeWindow where
  Start : Int
  End : Int
  deriving Repr, DecidableEq

/-- The `ActivityScheduler` state set up by the constructor (the `rand.Rand`
source is modelled by passing each draw explicitly, so it carries no state
here). -/
structure ActivityScheduler where
  timezone : Location
  workHoursStart : Int
  workHoursEnd : Int
  breakTimes : List TimeWindow
  lastActivityTime : Int
  dailyActionCount : Int
  deriving Repr, DecidableEq

/-- `NewActivityScheduler`: resolve the timezone string, fall back to UTC if
resolution fails, and return the scheduler with a `nil` error (`Option.none`)
on every path.  `resolve` stands for `time.LoadLocation`. -/
def NewActivityScheduler (resolve : String → Option Location)
    (timezone : String) : ActivityScheduler × Option String :=
  let loc :=
    match resolve timezone with
    | some l => l
    | none => UTC
  ({ timezone := loc
     workHoursStart := 9
     workHoursEnd := 18
     breakTimes := [{ Start := 0, End := 0 }]
     lastActivityTime := 0
     dailyActionCount := 0 }, none)

/-- `IsBreakTime`, as a function of the local wall-clock `hour` and `minute`
in the scheduler's timezone and of the single `rand.Float64()` draw consumed
by the branch that fires: lunch band (12:00–13:29) at probability 0.70,
mid-morning band (10:00–10:14) and mid-afternoon band (15:00–15:14) at
probability 0.40, false everywhere else regardless of the draw. -/
def IsBreakTime (hour minute : Int) (draw : ℚ) : Bool :=
  if hour = 12 ∨ (hour = 13 ∧ minute < 30) then
    decide (draw < 70 / 100)
  else if hour = 10 ∧ minute < 15 then
    decide (draw < 40 / 100)
  else if hour = 15 ∧ minute < 15 then
    decide (draw < 40 / 100)
  else
    false

/-!
## Concrete governor states used by the theorems below
-/

/-- A limiter with no configured kinds whose global cooldown runs until
instant 500. -/
def cooldownRL : RateLimiter where
  limits := fun _ => none
  actionHistory := fun _ => []
  dailyResetTime := 86400
  hourlyResetTime := 3600
  cooldownUntil := 500
  consecutiveActions := 0

/-- A limiter with the default configuration whose `profile_view` history
holds one entry far older than 24 hours. -/
def staleRL : RateLimiter where
  limits := defaultLimits
  actionHistory := fun t => if t = ActionProfileView then [-100000] else []
  dailyResetTime := 86400
  hourlyResetTime := 3600
  cooldownUntil := 0
  consecutiveActions := 0

/-- A limiter whose cooldown ends at instant 10 while the `message` kind,
configured with a 100-second minimum interval, was last recorded at
instant 0: near instant 5 the remaining minimum interval (95) exceeds the
remaining cooldown (5). -/
def shortCooldownRL : RateLimiter where
  limits := fun t =>
    if t = ActionMessage then
      some { HourlyMax := 15, DailyMax := 80, MinInterval := 100,
             CooldownAfter := 7, CooldownDuration := 480 }
    else none
  actionHistory := fun t => if t = ActionMessage then [0] else []
  dailyResetTime := 86400
  hourlyResetTime := 3600
  cooldownUntil := 10
  consecutiveActions := 0

/-- A freshly constructed limiter whose `search` history holds one stale and
one fresh entry relative to instant 100. -/
def sampleRL : RateLimiter :=
  { NewRateLimiter 0 with
    actionHistory := Function.update (fun _ => []) ActionSearch [-100000, 50] }

/-- The state reached from a fresh limiter by recording five
`connection_request` actions at instants 0, 90, 180, 270 and 360. -/
def rlC1 : RateLimiter :=
  [0, 90, 180, 270, 360].foldl
    (fun rl t => (rl.RecordAction t ActionConnectionReq).2) (NewRateLimiter 0)

/-!
## Helper lemmas
-/

/-- Pruning is idempotent: filtering an already-filtered history changes
nothing. -/
theorem cleanHistory_idem (now : Int) (h : List Int) :
    cleanHistory now (cleanHistory now h) = cleanHistory now h := by
  simp [cleanHistory, List.filter_filter]

/-- Every entry surviving a prune lies strictly inside the trailing
24-hour window. -/
theorem mem_cleanHistory {now t : Int} {h : List Int}
    (hm : t ∈ cleanHistory now h) : now - t < 86400 := by
  simp only [cleanHistory, List.mem_filter, decide_eq_true_eq] at hm
  omega

/-- Entries surviving a prune come from the original history. -/
theorem mem_of_mem_cleanHistory {now t : Int} {h : List Int}
    (hm : t ∈ cleanHistory now h) : t ∈ h :=
  List.mem_of_mem_filter hm

/-- The backward window scan never counts more entries than the history
holds. -/
theorem countActionsInWindow_le_length (now : Int) (h : List Int) (w : Int) :
    countActionsInWindow now h w ≤ h.length := by
  calc (h.reverse.takeWhile (fun t => decide (now - w < t))).length
      ≤ h.reverse.length := (List.takeWhile_sublist _).length_le
    _ = h.length := List.length_reverse h

/-!
## Claim theorems
-/

/-- C9: `IsBreakTime` returns false outside the three break bands
(lunch 12:00–13:29, mid-morning 10:00–10:14, mid-afternoon 15:00–15:14)
for every random draw; inside a band the result is exactly the comparison
of the single uniform draw against the band's fixed probability
(0.70 for lunch, 0.40 for the other two). -/
theorem isBreakTime_band_characterization (hour minute : Int) (draw : ℚ) :
    (¬ ((hour = 12 ∨ (hour = 13 ∧ minute < 30)) ∨ (hour = 10 ∧ minute < 15) ∨
          (hour = 15 ∧ minute < 15)) →
      IsBreakTime hour minute draw = false)
    ∧ ((hour = 12 ∨ (hour = 13 ∧ minute < 30)) →
        IsBreakTime hour minute draw = decide (draw < 70 / 100))
    ∧ ((hour = 10 ∧ minute < 15) →
        IsBreakTime hour minute draw = decide (draw < 40 / 100))
    ∧ ((hour = 15 ∧ minute < 15) →
        IsBreakTime hour minute draw = decide (draw < 40 / 100)) := by
  unfold IsBreakTime
  refine ⟨?_, ?_, ?_, ?_⟩
  · intro h
    rw [if_neg (fun hb => h (Or.inl hb)),
        if_neg (fun hb => h (Or.inr (Or.inl hb))),
        if_neg (fun hb => h (Or.inr (Or.inr hb)))]
  · intro h
    rw [if_pos h]
  · intro h
    rw [if_neg (by rintro (h12 | ⟨h13, _⟩) <;> omega), if_pos h]
  · intro h
    rw [if_neg (by rintro (h12 | ⟨h13, _⟩) <;> omega),
        if_neg (by rintro ⟨h10, _⟩; omega), if_pos h]

/-- C9 witness: a lunch-band instant where the result equals the draw
comparison, and an instant outside every band where the result is false. -/
theorem isBreakTime_band_characterization_witness :
    IsBreakTime 9 30 (1 / 100) = false
    ∧ IsBreakTime 12 0 (1 / 2) = decide ((1 : ℚ) / 2 < 70 / 100) :=
  ⟨(isBreakTime_band_characterization 9 30 (1 / 100)).1 (by decide),
   (isBreakTime_band_characterization 12 0 (1 / 2)).2.1 (Or.inl rfl)⟩

/-- C8: `NewActivityScheduler` never fails — the error is `nil` for every
resolver and timezone string; an unresolvable timezone falls back to UTC,
and every other constructed field (work-hour bounds 9 and 18 included) is
identical across invocations. -/
theorem newActivityScheduler_total_graceful
    (resolve resolve' : String → Option Location) (tz tz' : String) :
    (NewActivityScheduler resolve tz).2 = none
    ∧ (NewActivityScheduler resolve tz).1.workHoursStart = 9
    ∧ (NewActivityScheduler resolve tz).1.workHoursEnd = 18
    ∧ (resolve tz = none → (NewActivityScheduler resolve tz).1.timezone = UTC)
    ∧ { (NewActivityScheduler resolve tz).1 with timezone := UTC }
        = { (NewActivityScheduler resolve' tz').1 with timezone := UTC } := by
  refine ⟨rfl, rfl, rfl, ?_, rfl⟩
  intro h
  simp [NewActivityScheduler, h]

/-- C8 witness: an unresolvable timezone string yields the UTC location. -/
theorem newActivityScheduler_total_graceful_witness :
    (NewActivityScheduler (fun _ => none) "Mars/Olympus").1.timezone = UTC :=
  (newActivityScheduler_total_graceful (fun _ => none) (fun s => some ⟨s⟩)
    "Mars/Olympus" "America/New_York").2.2.2.1 rfl

/-- C10: `GetActionStats` survives (returns a snapshot) exactly when the
queried kind has a configured limit — the nil-pointer read, modelled as
`none`, happens exactly on an unconfigured kind — while `CanPerformAction`
and `GetWaitTime` handle the same missing entry gracefully. -/
theorem getActionStats_requires_configured (rl : RateLimiter) (now : Int)
    (kind : ActionType) :
    ((rl.GetActionStats now kind).isSome ↔ (rl.limits kind).isSome)
    ∧ (rl.limits kind = none → ¬ now < rl.cooldownUntil →
        (rl.CanPerformAction now kind).1 = (true, Reason.noReason)
        ∧ rl.GetWaitTime now kind = 0) := by
  constructor
  · cases h : rl.limits kind <;> simp [RateLimiter.GetActionStats, h]
  · intro h hcd
    constructor
    · simp [RateLimiter.CanPerformAction, h, hcd]
    · simp [RateLimiter.GetWaitTime, h, hcd]

/-- C10 witness: a fresh limiter on an unconfigured kind. -/
theorem getActionStats_requires_configured_witness :
    ((NewRateLimiter 0).CanPerformAction 0 "job_change").1 = (true, Reason.noReason)
    ∧ (NewRateLimiter 0).GetWaitTime 0 "job_change" = 0 :=
  (getActionStats_requires_configured (NewRateLimiter 0) 0 "job_change").2
    (by decide) (by decide)

/-- C7: `RecordAction` errors exactly on an unconfigured kind, leaving the
whole state untouched in that case; on success it appends exactly the
current instant to the recorded kind's history and no other kind's. -/
theorem recordAction_error_characterization (rl : RateLimiter) (now : Int)
    (kind k : ActionType) (limit : ActionLimit) :
    ((rl.RecordAction now kind).1.isSome ↔ rl.limits kind = none)
    ∧ (rl.limits kind = none → (rl.RecordAction now kind).2 = rl)
    ∧ (rl.limits kind = some limit →
        (rl.RecordAction now kind).2.actionHistory kind
            = rl.actionHistory kind ++ [now]
        ∧ (k ≠ kind →
            (rl.RecordAction now kind).2.actionHistory k = rl.actionHistory k)) := by
  refine ⟨?_, ?_, ?_⟩
  · cases h : rl.limits kind <;> simp [RateLimiter.RecordAction, h]
  · intro h
    simp [RateLimiter.RecordAction, h]
  · intro h
    constructor
    · simp only [RateLimiter.RecordAction, h]
      split_ifs <;> simp [Function.update_same]
    · intro hk
      simp only [RateLimiter.RecordAction, h]
      split_ifs <;> simp [Function.update_noteq hk]

/-- C7 witness: recording a `message` action on a fresh limiter appends the
instant to the `message` history and leaves the `scroll` history alone. -/
theorem recordAction_error_characterization_witness :
    ((NewRateLimiter 0).RecordAction 5 ActionMessage).2.actionHistory ActionMessage
        = (NewRateLimiter 0).actionHistory ActionMessage ++ [5]
    ∧ ((NewRateLimiter 0).RecordAction 5 ActionMessage).2.actionHistory ActionScroll
        = (NewRateLimiter 0).actionHistory ActionScroll := by
  have h := (recordAction_error_characterization (NewRateLimiter 0) 5
      ActionMessage ActionScroll
      { HourlyMax := 15, DailyMax := 80, MinInterval := 60,
        CooldownAfter := 7, CooldownDuration := 480 }).2.2 (by decide)
  exact ⟨h.1, h.2 (by decide)⟩

/-- C6: pruning invariant — after a prune pass (`cleanHistory` itself, the
pass inside `CanPerformAction` on the configured, non-cooldown path, or the
per-kind passes of `ResetDaily`) every surviving timestamp is strictly
within the trailing 24-hour window of the current instant. -/
theorem prune_invariant (now t : Int) (h : List Int) (rl : RateLimiter)
    (kind : ActionType) (limit : ActionLimit) :
    (t ∈ cleanHistory now h → now - t < 86400)
    ∧ (t ∈ (rl.ResetDaily now).actionHistory kind → now - t < 86400)
    ∧ (¬ now < rl.cooldownUntil → rl.limits kind = some limit →
        t ∈ (rl.CanPerformAction now kind).2.actionHistory kind →
          now - t < 86400) := by
  refine ⟨fun hm => mem_cleanHistory hm, ?_, ?_⟩
  · intro hm
    have hm' : t ∈ cleanHistory now (rl.actionHistory kind) := by
      simpa [RateLimiter.ResetDaily] using hm
    exact mem_cleanHistory hm'
  · intro hcd hl hm
    have hm' : t ∈ cleanHistory now (rl.actionHistory kind) := by
      simpa [RateLimiter.CanPerformAction, hcd, hl, Function.update_same] using hm
    exact mem_cleanHistory hm'

/-- C6 witness: a permission check at instant 100 on a history holding a
stale and a fresh entry leaves only entries inside the window. -/
theorem prune_invariant_witness : (100 : Int) - 50 < 86400 :=
  (prune_invariant 100 50 [-100000, 50] sampleRL ActionSearch
    { HourlyMax := 30, DailyMax := 150, MinInterval := 20,
      CooldownAfter := 8, CooldownDuration := 180 }).2.2
    (by decide) (by decide) (by decide)

/-- C3 counterexample: with the global cooldown running until instant 500,
`CanPerformAction` at instant 100 on an unconfigured kind does not return
`(true, "")` — the cooldown gate fires before the open default. -/
theorem canPerform_unconfigured_cex :
    cooldownRL.limits ActionLike = none
    ∧ (cooldownRL.CanPerformAction 100 ActionLike).1 ≠ (true, Reason.noReason) := by
  decide

/-- C3 amended: outside an active cooldown an unconfigured kind is always
allowed with an empty reason and the state unchanged; during a cooldown it
is denied with the cooldown reason like every other kind. -/
theorem canPerform_unconfigured_amended (rl : RateLimiter) (now : Int)
    (kind : ActionType) (h : rl.limits kind = none) :
    rl.CanPerformAction now kind =
      if now < rl.cooldownUntil then
        ((false, Reason.cooldown (rl.cooldownUntil - now)), rl)
      else
        ((true, Reason.noReason), rl) := by
  unfold RateLimiter.CanPerformAction
  split_ifs with hcd
  · rfl
  · rw [h]

/-- C3 amended witness: the unconfigured-kind query during the cooldown of
`cooldownRL` is denied with the remaining cooldown. -/
theorem canPerform_unconfigured_amended_witness :
    cooldownRL.CanPerformAction 100 ActionLike
      = ((false, Reason.cooldown (500 - 100)), cooldownRL) := by
  rw [canPerform_unconfigured_amended cooldownRL 100 ActionLike rfl,
      if_pos (by decide : (100 : Int) < cooldownRL.cooldownUntil)]
  rfl

/-- C4 counterexample: at instant 5 the `shortCooldownRL` cooldown has
5 seconds left while the `message` minimum interval has 95 seconds left;
`GetWaitTime` returns the remaining cooldown, not the longer remaining
minimum interval claimed. -/
theorem getWaitTime_cooldown_precedence_cex :
    shortCooldownRL.GetWaitTime 5 ActionMessage = shortCooldownRL.cooldownUntil - 5
    ∧ shortCooldownRL.GetWaitTime 5 ActionMessage ≠ 100 - (5 - 0) := by
  decide

/-- C4 amended: while the cooldown is active `GetWaitTime` returns exactly
the remaining cooldown, regardless of any longer pending minimum interval;
otherwise it returns the remaining minimum interval of the kind's last
history entry, floored at zero (and zero with no history). -/
theorem getWaitTime_characterization (rl : RateLimiter) (now : Int)
    (kind : ActionType) (limit : ActionLimit) (hl : rl.limits kind = some limit) :
    (now < rl.cooldownUntil → rl.GetWaitTime now kind = rl.cooldownUntil - now)
    ∧ (¬ now < rl.cooldownUntil →
        rl.GetWaitTime now kind =
          match (rl.actionHistory kind).getLast? with
          | none => 0
          | some lastAction => max 0 (limit.MinInterval - (now - lastAction))) := by
  constructor
  · intro hcd
    simp [RateLimiter.GetWaitTime, hcd]
  · intro hcd
    simp only [RateLimiter.GetWaitTime, if_neg hcd, hl]
    cases hg : (rl.actionHistory kind).getLast? with
    | none => rfl
    | some lastAction =>
        simp only []
        split_ifs with hlt
        · exact (max_eq_right (by omega)).symm
        · exact (max_eq_left (by omega)).symm

/-- C4 amended witness: past the cooldown of `shortCooldownRL`, the wait is
the remaining minimum interval. -/
theorem getWaitTime_characterization_witness :
    shortCooldownRL.GetWaitTime 11 ActionMessage = 89 := by
  rw [(getWaitTime_characterization shortCooldownRL 11 ActionMessage
      { HourlyMax := 15, DailyMax := 80, MinInterval := 100,
        CooldownAfter := 7, CooldownDuration := 480 } (by decide)).2 (by decide)]
  decide

/-- C5 counterexample: advancing the query instant from 5 to 11 on
`shortCooldownRL` makes `GetWaitTime` jump upward (from the 5 remaining
cooldown seconds to the 89 remaining minimum-interval seconds), refuting
monotone non-increase. -/
theorem getWaitTime_monotone_cex :
    shortCooldownRL.GetWaitTime 5 ActionMessage
      < shortCooldownRL.GetWaitTime 11 ActionMessage := by
  decide

/-- C5 amended: `GetWaitTime` is non-negative at every instant; while the
cooldown is active it decreases by exactly the elapsed time, and from any
instant at or past the cooldown end it is monotonically non-increasing —
but it may jump upward once, at cooldown expiry, when the remaining
minimum interval exceeds the remaining cooldown. -/
theorem getWaitTime_time_behavior (rl : RateLimiter) (kind : ActionType)
    (t1 t2 : Int) :
    0 ≤ rl.GetWaitTime t1 kind
    ∧ (t1 ≤ t2 → t2 < rl.cooldownUntil →
        rl.GetWaitTime t2 kind = rl.GetWaitTime t1 kind - (t2 - t1))
    ∧ (t1 ≤ t2 → rl.cooldownUntil ≤ t1 →
        rl.GetWaitTime t2 kind ≤ rl.GetWaitTime t1 kind) := by
  refine ⟨?_, ?_, ?_⟩
  · unfold RateLimiter.GetWaitTime
    split_ifs with hcd
    · omega
    · cases hl : rl.limits kind with
      | none => exact le_refl 0
      | some limit =>
          cases hg : (rl.actionHistory kind).getLast? with
          | none => exact le_refl 0
          | some lastAction =>
              simp only []
              split_ifs with hlt <;> omega
  · intro h12 hcd2
    have hcd1 : t1 < rl.cooldownUntil := lt_of_le_of_lt h12 hcd2
    unfold RateLimiter.GetWaitTime
    rw [if_pos hcd1, if_pos hcd2]
    ring
  · intro h12 hcd1
    have hcd2 : rl.cooldownUntil ≤ t2 := le_trans hcd1 h12
    unfold RateLimiter.GetWaitTime
    rw [if_neg (not_lt.2 hcd1), if_neg (not_lt.2 hcd2)]
    cases hl : rl.limits kind with
    | none => exact le_refl 0
    | some limit =>
        cases hg : (rl.actionHistory kind).getLast? with
        | none => exact le_refl 0
        | some lastAction =>
            simp only []
            split_ifs with hlt1 hlt2 <;> omega

/-- C5 amended witness: on `shortCooldownRL` the wait shrinks by exactly the
elapsed time inside the cooldown, and is non-increasing past it. -/
theorem getWaitTime_time_behavior_witness :
    shortCooldownRL.GetWaitTime 5 ActionMessage
        = shortCooldownRL.GetWaitTime 2 ActionMessage - (5 - 2)
    ∧ shortCooldownRL.GetWaitTime 20 ActionMessage
        ≤ shortCooldownRL.GetWaitTime 15 ActionMessage :=
  ⟨(getWaitTime_time_behavior shortCooldownRL ActionMessage 2 5).2.1
      (by decide) (by decide),
   (getWaitTime_time_behavior shortCooldownRL ActionMessage 15 20).2.2
      (by decide) (by decide)⟩

/-- C2 counterexample: `CanPerformAction` is not state-preserving — on
`staleRL`, whose `profile_view` history holds an entry older than 24 hours,
the call at instant 0 prunes that entry, so the history sequence differs
before and after the call. -/
theorem canPerform_mutates_cex :
    (staleRL.CanPerformAction 0 ActionProfileView).2.actionHistory ActionProfileView
      ≠ staleRL.actionHistory ActionProfileView := by
  decide

/-- C2 amended: the only state change `CanPerformAction` can make is pruning
the queried kind's history to the trailing 24-hour window; a repeated call
at the same instant without an intervening `RecordAction` returns the same
result and leaves the state exactly as the first call left it. -/
theorem canPerform_prune_only (rl : RateLimiter) (now : Int) (kind : ActionType) :
    ((rl.CanPerformAction now kind).2 = rl
      ∨ (rl.CanPerformAction now kind).2 =
          { rl with actionHistory := Function.update rl.actionHistory kind (cleanHistory now (rl.actionHistory kind)) })
    ∧ (rl.CanPerformAction now kind).2.CanPerformAction now kind
        = rl.CanPerformAction now kind := by
  by_cases hcd : now < rl.cooldownUntil
  · have h1 : rl.CanPerformAction now kind
        = ((false, Reason.cooldown (rl.cooldownUntil - now)), rl) := by
      unfold RateLimiter.CanPerformAction
      rw [if_pos hcd]
    rw [h1]
    exact ⟨Or.inl rfl, h1⟩
  · cases hl : rl.limits kind with
    | none =>
        have h1 : rl.CanPerformAction now kind = ((true, Reason.noReason), rl) := by
          unfold RateLimiter.CanPerformAction
          rw [if_neg hcd, hl]
        rw [h1]
        exact ⟨Or.inl rfl, h1⟩
    | some limit =>
        have h1 : rl.CanPerformAction now kind
            = (checkQuotas limit now (cleanHistory now (rl.actionHistory kind)),
               { rl with actionHistory := Function.update rl.actionHistory kind (cleanHistory now (rl.actionHistory kind)) }) := by
          unfold RateLimiter.CanPerformAction
          rw [if_neg hcd, hl]
        have h2 : ({ rl with actionHistory := Function.update rl.actionHistory kind (cleanHistory now (rl.actionHistory kind)) }
                : RateLimiter).CanPerformAction now kind
            = (checkQuotas limit now (cleanHistory now (rl.actionHistory kind)),
               { rl with actionHistory := Function.update rl.actionHistory kind (cleanHistory now (rl.actionHistory kind)) }) := by
          unfold RateLimiter.CanPerformAction
          rw [if_neg hcd, hl]
          dsimp only
          rw [Function.update_same, cleanHistory_idem, Function.update_idem]
        rw [h1, h2]
        exact ⟨Or.inr rfl, rfl⟩

/-- C2 amended witness: the `staleRL` call prunes exactly as described and a
second call at the same instant is a no-op returning the same result. -/
theorem canPerform_prune_only_witness :
    ((staleRL.CanPerformAction 0 ActionProfileView).2 = staleRL
      ∨ (staleRL.CanPerformAction 0 ActionProfileView).2 =
          { staleRL with actionHistory := Function.update staleRL.actionHistory ActionProfileView (cleanHistory 0 (staleRL.actionHistory ActionProfileView)) })
    ∧ (staleRL.CanPerformAction 0 ActionProfileView).2.CanPerformAction 0 ActionProfileView
        = staleRL.CanPerformAction 0 ActionProfileView :=
  canPerform_prune_only staleRL 0 ActionProfileView

/-- C1: after five `connection_request` records at instants 0, 90, 180, 270
and 360 on a fresh limiter, the global cooldown-end is 960 and the
consecutive counter is zero; `CanPerformAction` for the kind is denied with
the cooldown reason at every instant strictly between 360 and 960, and
allowed with an empty reason at every instant from 960 on. -/
theorem connectionRequest_cooldown_scenario (t u : Int) :
    rlC1.cooldownUntil = 960
    ∧ rlC1.consecutiveActions = 0
    ∧ (360 < t → t < 960 →
        (rlC1.CanPerformAction t ActionConnectionReq).1
          = (false, Reason.cooldown (960 - t)))
    ∧ (960 ≤ u →
        (rlC1.CanPerformAction u ActionConnectionReq).1
          = (true, Reason.noReason)) := by
  have hcd : rlC1.cooldownUntil = 960 := by decide
  have hcons : rlC1.consecutiveActions = 0 := by decide
  have hl : rlC1.limits ActionConnectionReq
      = some { HourlyMax := 10, DailyMax := 50, MinInterval := 90,
               CooldownAfter := 5, CooldownDuration := 600 } := by decide
  have hh : rlC1.actionHistory ActionConnectionReq = [0, 90, 180, 270, 360] := by
    decide
  refine ⟨hcd, hcons, ?_, ?_⟩
  · intro h1 h2
    unfold RateLimiter.CanPerformAction
    rw [hcd, if_pos h2]
  · intro hu
    have hcdu : ¬ u < rlC1.cooldownUntil := by
      rw [hcd]; omega
    unfold RateLimiter.CanPerformAction
    rw [if_neg hcdu, hl]
    dsimp only
    rw [hh]
    have hlen : (cleanHistory u [0, 90, 180, 270, 360]).length ≤ 5 :=
      List.length_filter_le _ _
    have hhour : ¬ ((countActionsInWindow u (cleanHistory u [0, 90, 180, 270, 360]) 3600 : Int) ≥ 10) := by
      have := countActionsInWindow_le_length u (cleanHistory u [0, 90, 180, 270, 360]) 3600
      omega
    have hday : ¬ ((countActionsInWindow u (cleanHistory u [0, 90, 180, 270, 360]) 86400 : Int) ≥ 50) := by
      have := countActionsInWindow_le_length u (cleanHistory u [0, 90, 180, 270, 360]) 86400
      omega
    unfold checkQuotas
    rw [if_neg hhour, if_neg hday]
    cases hg : (cleanHistory u [0, 90, 180, 270, 360]).getLast? with
    | none => rfl
    | some lastAction =>
        have hmem : lastAction ∈ ([0, 90, 180, 270, 360] : List Int) :=
          mem_of_mem_cleanHistory (List.mem_of_getLast?_eq_some hg)
        have hle : lastAction ≤ 360 := by
          simp only [List.mem_cons, List.not_mem_nil, or_false] at hmem
          rcases hmem with rfl | rfl | rfl | rfl | rfl <;> norm_num
        dsimp only
        rw [if_neg (by omega)]

/-- C1 witness: the scenario evaluated at instants 500 (inside the cooldown)
and 960 (the first allowed instant). -/
theorem connectionRequest_cooldown_scenario_witness :
    (rlC1.CanPerformAction 500 ActionConnectionReq).1
        = (false, Reason.cooldown (960 - 500))
    ∧ (rlC1.CanPerformAction 960 ActionConnectionReq).1
        = (true, Reason.noReason) :=
  ⟨(connectionRequest_cooldown_scenario 500 960).2.2.1 (by decide) (by decide),
   (connectionRequest_cooldown_scenario 500 960).2.2.2 (by decide)⟩
